import Mathlib

/-!
# Verification of the `TrailGenerator` walk engine

Shallow embedding of the class `TrailGenerator` from `src/trail_generator.py`:
an agent performs a mostly self-avoiding random walk on an N×N occupancy grid,
marking cells as Visited and stopping when trapped.

Modelling conventions:
* a grid cell is `Bool` (`false` = Unvisited/0, `true` = Visited/1), the grid a
  total function on integer coordinates (the numpy array is only ever read at
  bounds-checked indices in the code paths modelled here);
* coordinates and the grid size are `Int` (Python ints), probabilities are `ℚ`;
* every random draw consumed by a method is passed in explicitly: `reset` takes
  the two coordinate draws and the heading draw, `step` takes the marking draw
  `u ∈ [0,1)`, the turn-vs-straight draw `v ∈ [0,1)` and the uniform choice
  index `c` used by `np_random.choice` (reduced modulo the candidate count);
* Python `%` on ints (nonnegative result for positive modulus) is `Int.emod`,
  Python `//` is `Int.ediv` (floor division for the positive divisors used).
-/

/-- The three relative moves of the move table
`{"straight": 0, "left": -1, "right": 1}` (line 67 of the source). -/
inductive Move
  | straight
  | left
  | right
deriving DecidableEq, Repr

/-- `self._move_to_direction_change` (line 67): signed heading offset of each
relative move. -/
def move_to_direction_change : Move → Int
  | .straight => 0
  | .left => -1
  | .right => 1

/-- `self._direction_vectors` (lines 63-66): unit vector of each heading
`0..3` in (row, col) coordinates. Headings outside `0..3` never arise (they
are always reduced mod 4 first); the catch-all returns `(0, 0)`. -/
def direction_vectors (d : Int) : Int × Int :=
  if d = 0 then (-1, 0)
  else if d = 1 then (0, 1)
  else if d = 2 then (1, 0)
  else if d = 3 then (0, -1)
  else (0, 0)

/-- The bounds test `0 <= r < size and 0 <= c < size` used at lines 91 and
112 of the source. -/
def in_bounds (size : Int) (p : Int × Int) : Bool :=
  decide (0 ≤ p.1 ∧ p.1 < size) && decide (0 ≤ p.2 ∧ p.2 < size)

/-- One iteration of the neighbor loop in `_is_move_valid` (lines 83-96):
the neighbor `check` is acceptable when it is the agent's current location,
or outside the grid, or carries no trail. -/
def neighbor_ok (size : Int) (grid : Int × Int → Bool) (current check : Int × Int) : Bool :=
  if check = current then true
  else if in_bounds size check then !grid check
  else true

/-- `TrailGenerator._is_move_valid` (lines 79-97): the target must be
unmarked, and each of its four cardinal neighbors must pass `neighbor_ok`. -/
def is_move_valid (size : Int) (grid : Int × Int → Bool) (target current : Int × Int) : Bool :=
  if grid target then false
  else ([0, 1, 2, 3] : List Int).all fun i =>
    neighbor_ok size grid current
      (target.1 + (direction_vectors i).1, target.2 + (direction_vectors i).2)

/-- State of a `TrailGenerator` instance: the configuration fields set in
`__init__` (lines 56-60) and the run state set in `reset` (lines 71-77). -/
structure TrailGenerator where
  size : Int
  turn_prob : ℚ
  forget_prob : ℚ
  grid : Int × Int → Bool
  agent_location : Int × Int
  agent_direction : Int
  is_trapped : Bool

/-- The random draws consumed by one `step()` call. -/
structure Draws where
  u : ℚ
  v : ℚ
  c : Nat

namespace TrailGenerator

/-- Candidate heading and location of a relative move (lines 108-109):
`new_dir = (direction + d_change) % 4`,
`next_loc = location + direction_vectors[new_dir]`. -/
def candidate (g : TrailGenerator) (m : Move) : (Int × Int) × Int :=
  ((g.agent_location.1 +
      (direction_vectors ((g.agent_direction + move_to_direction_change m).emod 4)).1,
    g.agent_location.2 +
      (direction_vectors ((g.agent_direction + move_to_direction_change m).emod 4)).2),
   (g.agent_direction + move_to_direction_change m).emod 4)

/-- A relative move enters `valid_moves` (lines 107-116) when its candidate
location is in bounds and `_is_move_valid` accepts it. -/
def move_ok (g : TrailGenerator) (m : Move) : Bool :=
  in_bounds g.size (g.candidate m).1 &&
    is_move_valid g.size g.grid (g.candidate m).1 g.agent_location

/-- The marking at lines 103-104: when the drawn `u` exceeds
`forget_prob`, the agent's current cell is set to Visited. -/
def mark_if (g : TrailGenerator) (u : ℚ) : TrailGenerator :=
  if g.forget_prob < u then
    { g with grid := fun p => if p = g.agent_location then true else g.grid p }
  else g

/-- The list `turns = [m for m in ["left", "right"] if m in valid_moves]`
(line 123). -/
def turns_of (g : TrailGenerator) : List Move :=
  [Move.left, Move.right].filter fun m => g.move_ok m

/-- The move selection at lines 122-132. `np_random.choice(turns)` is
modelled as indexing `turns` with the uniform draw `c` reduced modulo its
length. -/
def choose_move (g : TrailGenerator) (v : ℚ) (c : Nat) : Move :=
  if g.move_ok .straight && !g.turns_of.isEmpty then
    if v < g.turn_prob then g.turns_of.getD (c % g.turns_of.length) .straight
    else .straight
  else if !g.turns_of.isEmpty then g.turns_of.getD (c % g.turns_of.length) .straight
  else .straight

/-- `TrailGenerator.step` (lines 99-134): no-op when trapped; otherwise mark
the current cell with probability `1 - forget_prob`, collect the valid
moves, trap if none, else apply the chosen move's location and heading. -/
def step (g : TrailGenerator) (d : Draws) : TrailGenerator :=
  if g.is_trapped then g
  else if !(g.mark_if d.u).move_ok .straight && (g.mark_if d.u).turns_of.isEmpty then
    { g.mark_if d.u with is_trapped := true }
  else
    { g.mark_if d.u with
      agent_location := ((g.mark_if d.u).candidate ((g.mark_if d.u).choose_move d.v d.c)).1,
      agent_direction := ((g.mark_if d.u).candidate ((g.mark_if d.u).choose_move d.v d.c)).2 }

/-- `TrailGenerator.reset` (lines 71-77): clear the grid, place the agent at
the drawn coordinates `(dr, dc)` (each drawn from
`[size // 2 - 2, size // 2 + 2)` by `np_random.integers`), set the drawn
heading `dd` (drawn from `[0, 4)`), and clear the trapped flag. -/
def reset (g : TrailGenerator) (dr dc dd : Int) : TrailGenerator :=
  { g with
    grid := fun _ => false,
    agent_location := (dr, dc),
    agent_direction := dd,
    is_trapped := false }

/-- `TrailGenerator.__init__` (lines 56-69): store the configuration
unexamined and call `reset()`. The constructor performs no configuration
validation; the only failure in it is numpy's `ValueError` from
`np.zeros((size, size))` when `size` is negative. -/
def init (grid_size : Int) (turn_prob sparsity : ℚ) (dr dc dd : Int) :
    Except String TrailGenerator :=
  if grid_size < 0 then .error "ValueError: negative dimensions are not allowed"
  else .ok (reset
    { size := grid_size, turn_prob := turn_prob, forget_prob := sparsity,
      grid := fun _ => false, agent_location := (0, 0),
      agent_direction := 0, is_trapped := false } dr dc dd)

/-- A run: the driver calls `step()` once per tick (line 183 of the source),
here folded over an explicit list of per-tick draws. -/
def run (g : TrailGenerator) (ds : List Draws) : TrailGenerator :=
  ds.foldl step g

end TrailGenerator

/-- The four cardinal neighbors of a cell, in the order the neighbor loop of
`_is_move_valid` visits them (headings 0, 1, 2, 3). -/
def cardinal_neighbors (p : Int × Int) : List (Int × Int) :=
  [(p.1 - 1, p.2), (p.1, p.2 + 1), (p.1 + 1, p.2), (p.1, p.2 - 1)]

/-- Clockwise quarter turn in (row, col) screen coordinates (row grows
downward, as in the source's rendering): up ↦ right ↦ down ↦ left. -/
def cw_rotate (v : Int × Int) : Int × Int := (v.2, -v.1)

/-- The concrete scenario state of §8 of the spec: `size = 5`, agent at
`(2, 2)` heading Up, `turn_probability = 0`, `forget_probability = 0`,
all-Unvisited grid. -/
def g8 : TrailGenerator :=
  { size := 5, turn_prob := 0, forget_prob := 0, grid := fun _ => false,
    agent_location := (2, 2), agent_direction := 0, is_trapped := false }

/-- A 1×1 configuration with the agent at the origin: every candidate move
is out of bounds, so the first `step()` traps. -/
def g_small : TrailGenerator :=
  { size := 1, turn_prob := 0, forget_prob := 0, grid := fun _ => false,
    agent_location := (0, 0), agent_direction := 0, is_trapped := false }

/-- The 1×1 configuration already trapped. -/
def g_stuck : TrailGenerator :=
  { g_small with is_trapped := true }

/-- The 5×5 scenario configuration with the cell `(2, 2)` already marked
Visited and the agent moved off it. -/
def g_marked : TrailGenerator :=
  { g8 with grid := fun p => if p = (2, 2) then true else false,
            agent_location := (1, 2) }

/-- Scenario state after the first step: `(2, 2)` marked, agent at `(1, 2)`
heading Up. -/
def s8_one : TrailGenerator :=
  { g8 with grid := fun p => if p = (2, 2) then true else false,
            agent_location := (1, 2), agent_direction := 0 }

/-- Scenario state after the second step: `(2, 2)` and `(1, 2)` marked,
agent at `(0, 2)` heading Up. -/
def s8_two : TrailGenerator :=
  { g8 with
    grid := fun p => if p = (1, 2) then true else if p = (2, 2) then true else false,
    agent_location := (0, 2), agent_direction := 0 }

/-- Scenario state after the marking phase of the third step: `(0, 2)` also
marked, agent still at `(0, 2)` heading Up. -/
def s8_three : TrailGenerator :=
  { g8 with
    grid := fun p => if p = (0, 2) then true
      else if p = (1, 2) then true else if p = (2, 2) then true else false,
    agent_location := (0, 2), agent_direction := 0 }

/-- A 4×4 configuration (the smallest size whose reset window stays inside
the grid). -/
def g4 : TrailGenerator :=
  { size := 4, turn_prob := 0, forget_prob := 0, grid := fun _ => false,
    agent_location := (0, 0), agent_direction := 0, is_trapped := false }

namespace TrailGenerator

lemma mark_if_eq_of_lt {g : TrailGenerator} {u : ℚ} (h : g.forget_prob < u) :
    g.mark_if u = { g with grid := fun p => if p = g.agent_location then true else g.grid p } := by
  unfold mark_if; rw [if_pos h]

lemma mark_if_eq_of_le {g : TrailGenerator} {u : ℚ} (h : ¬ g.forget_prob < u) :
    g.mark_if u = g := by
  unfold mark_if; rw [if_neg h]

lemma mark_if_size (g : TrailGenerator) (u : ℚ) : (g.mark_if u).size = g.size := by
  unfold mark_if; split <;> rfl

lemma mark_if_turn_prob (g : TrailGenerator) (u : ℚ) :
    (g.mark_if u).turn_prob = g.turn_prob := by
  unfold mark_if; split <;> rfl

lemma mark_if_forget_prob (g : TrailGenerator) (u : ℚ) :
    (g.mark_if u).forget_prob = g.forget_prob := by
  unfold mark_if; split <;> rfl

lemma mark_if_agent_location (g : TrailGenerator) (u : ℚ) :
    (g.mark_if u).agent_location = g.agent_location := by
  unfold mark_if; split <;> rfl

lemma mark_if_agent_direction (g : TrailGenerator) (u : ℚ) :
    (g.mark_if u).agent_direction = g.agent_direction := by
  unfold mark_if; split <;> rfl

lemma mark_if_is_trapped (g : TrailGenerator) (u : ℚ) :
    (g.mark_if u).is_trapped = g.is_trapped := by
  unfold mark_if; split <;> rfl

lemma mark_if_candidate (g : TrailGenerator) (u : ℚ) (m : Move) :
    (g.mark_if u).candidate m = g.candidate m := by
  unfold candidate
  rw [mark_if_agent_location, mark_if_agent_direction]

/-- The candidate location of a relative move is never the agent's current
location: the added unit vector is nonzero. -/
lemma candidate_fst_ne (g : TrailGenerator) (m : Move) :
    (g.candidate m).1 ≠ g.agent_location := by
  unfold candidate
  have h0 : 0 ≤ (g.agent_direction + move_to_direction_change m).emod 4 :=
    Int.emod_nonneg _ (by norm_num)
  have h1 : (g.agent_direction + move_to_direction_change m).emod 4 < 4 :=
    Int.emod_lt_of_pos _ (by norm_num)
  have h4 : (g.agent_direction + move_to_direction_change m).emod 4 = 0 ∨
      (g.agent_direction + move_to_direction_change m).emod 4 = 1 ∨
      (g.agent_direction + move_to_direction_change m).emod 4 = 2 ∨
      (g.agent_direction + move_to_direction_change m).emod 4 = 3 := by omega
  rcases h4 with h | h | h | h <;>
    rw [h] <;> simp [direction_vectors, Prod.ext_iff]

lemma neighbor_ok_mark (size : Int) (grid : Int × Int → Bool) (loc check : Int × Int) :
    neighbor_ok size (fun p => if p = loc then true else grid p) loc check =
      neighbor_ok size grid loc check := by
  unfold neighbor_ok
  by_cases h : check = loc
  · simp [h]
  · simp [h]

lemma is_move_valid_mark (size : Int) (grid : Int × Int → Bool) (loc target : Int × Int)
    (h : target ≠ loc) :
    is_move_valid size (fun p => if p = loc then true else grid p) target loc =
      is_move_valid size grid target loc := by
  unfold is_move_valid
  simp only [neighbor_ok_mark]
  simp [h]

/-- Marking the agent's current cell does not change the validity of any
relative move: the validity check never reads the current cell. -/
lemma move_ok_mark_if (g : TrailGenerator) (u : ℚ) (m : Move) :
    (g.mark_if u).move_ok m = g.move_ok m := by
  by_cases hu : g.forget_prob < u
  · rw [mark_if_eq_of_lt hu]
    show (in_bounds g.size (g.candidate m).1 &&
        is_move_valid g.size (fun p => if p = g.agent_location then true else g.grid p)
          (g.candidate m).1 g.agent_location) =
      g.move_ok m
    rw [is_move_valid_mark g.size g.grid g.agent_location (g.candidate m).1
      (candidate_fst_ne g m)]
    rfl
  · rw [mark_if_eq_of_le hu]

lemma turns_of_mark_if (g : TrailGenerator) (u : ℚ) :
    (g.mark_if u).turns_of = g.turns_of := by
  unfold turns_of
  simp only [move_ok_mark_if]

lemma choose_move_mark_if (g : TrailGenerator) (u v : ℚ) (c : Nat) :
    (g.mark_if u).choose_move v c = g.choose_move v c := by
  unfold choose_move
  rw [move_ok_mark_if, turns_of_mark_if, mark_if_turn_prob]

lemma step_of_trapped (g : TrailGenerator) (d : Draws) (h : g.is_trapped = true) :
    g.step d = g := by
  unfold step; rw [if_pos h]

lemma step_grid (g : TrailGenerator) (d : Draws) (h : g.is_trapped = false) :
    (g.step d).grid = (g.mark_if d.u).grid := by
  unfold step
  rw [if_neg (by rw [h]; exact Bool.false_ne_true)]
  split <;> rfl

lemma step_of_no_moves (g : TrailGenerator) (d : Draws) (h : g.is_trapped = false)
    (hs : g.move_ok .straight = false) (hl : g.move_ok .left = false)
    (hr : g.move_ok .right = false) :
    g.step d = { g.mark_if d.u with is_trapped := true } := by
  unfold step
  rw [if_neg (by rw [h]; exact Bool.false_ne_true)]
  rw [if_pos (by simp [move_ok_mark_if, turns_of_mark_if, turns_of, hs, hl, hr])]

lemma mark_if_grid_ne (g : TrailGenerator) (u : ℚ) (p : Int × Int)
    (hp : p ≠ g.agent_location) : (g.mark_if u).grid p = g.grid p := by
  by_cases hu : g.forget_prob < u
  · rw [mark_if_eq_of_lt hu]
    show (if p = g.agent_location then true else g.grid p) = g.grid p
    rw [if_neg hp]
  · rw [mark_if_eq_of_le hu]

lemma mark_if_grid_loc (g : TrailGenerator) (u : ℚ) (hu : g.forget_prob < u) :
    (g.mark_if u).grid g.agent_location = true := by
  rw [mark_if_eq_of_lt hu]
  show (if g.agent_location = g.agent_location then true else g.grid g.agent_location) = true
  rw [if_pos rfl]

lemma mark_if_grid_mono (g : TrailGenerator) (u : ℚ) (p : Int × Int)
    (h : g.grid p = true) : (g.mark_if u).grid p = true := by
  by_cases hp : p = g.agent_location
  · by_cases hu : g.forget_prob < u
    · rw [hp]; exact mark_if_grid_loc g u hu
    · rw [mark_if_eq_of_le hu]; exact h
  · rw [mark_if_grid_ne g u p hp]; exact h

lemma step_of_some_move (g : TrailGenerator) (d : Draws) (h : g.is_trapped = false)
    (hok : g.move_ok .straight = true ∨ g.move_ok .left = true ∨ g.move_ok .right = true) :
    g.step d = { g.mark_if d.u with
      agent_location := (g.candidate (g.choose_move d.v d.c)).1,
      agent_direction := (g.candidate (g.choose_move d.v d.c)).2 } := by
  unfold step
  rw [if_neg (by rw [h]; exact Bool.false_ne_true)]
  rw [if_neg (by
    simp only [move_ok_mark_if, turns_of_mark_if]
    rcases hok with h1 | h1 | h1 <;> simp [turns_of, h1])]
  rw [mark_if_candidate, choose_move_mark_if]

/-- Every grid change made by `step` sets the changed cell to Visited. -/
lemma step_grid_sets_true (g : TrailGenerator) (d : Draws) (p : Int × Int)
    (h : (g.step d).grid p ≠ g.grid p) : (g.step d).grid p = true := by
  by_cases ht : g.is_trapped = true
  · rw [step_of_trapped g d ht] at h
    exact absurd rfl h
  · have ht' : g.is_trapped = false := by revert ht; cases g.is_trapped <;> simp
    rw [step_grid g d ht'] at h ⊢
    by_cases hp : p = g.agent_location
    · by_cases hu : g.forget_prob < d.u
      · rw [hp]; exact mark_if_grid_loc g d.u hu
      · rw [mark_if_eq_of_le hu] at h
        exact absurd rfl h
    · rw [mark_if_grid_ne g d.u p hp] at h
      exact absurd rfl h

/-- A Visited cell stays Visited across a `step`. -/
lemma step_grid_mono (g : TrailGenerator) (d : Draws) (p : Int × Int)
    (h : g.grid p = true) : (g.step d).grid p = true := by
  by_cases ht : g.is_trapped = true
  · rw [step_of_trapped g d ht]; exact h
  · have ht' : g.is_trapped = false := by revert ht; cases g.is_trapped <;> simp
    rw [step_grid g d ht']
    exact mark_if_grid_mono g d.u p h

lemma turns_of_ne_nil_of (g : TrailGenerator)
    (h : g.move_ok Move.left = true ∨ g.move_ok Move.right = true) :
    g.turns_of ≠ [] := by
  intro hnil
  unfold turns_of at hnil
  rcases h with h' | h'
  · have hmem := List.mem_filter.mpr
      ⟨(by simp : Move.left ∈ [Move.left, Move.right]), by simpa using h'⟩
    rw [hnil] at hmem
    exact List.not_mem_nil _ hmem
  · have hmem := List.mem_filter.mpr
      ⟨(by simp : Move.right ∈ [Move.left, Move.right]), by simpa using h'⟩
    rw [hnil] at hmem
    exact List.not_mem_nil _ hmem

lemma turns_of_eq_nil_of (g : TrailGenerator)
    (hl : g.move_ok Move.left = false) (hr : g.move_ok Move.right = false) :
    g.turns_of = [] := by
  simp [turns_of, hl, hr]

lemma turns_getD_mem (l : List Move) (c : Nat) (h : l ≠ []) :
    l.getD (c % l.length) Move.straight ∈ l := by
  have hlen : 0 < l.length := List.length_pos.mpr h
  have hlt : c % l.length < l.length := Nat.mod_lt _ hlen
  rw [List.getD_eq_getElem l Move.straight hlt]
  exact List.getElem_mem hlt

/-- With `turn_prob = 0`, an accepted straight move is always chosen
(the draw `v ∈ [0,1)` never satisfies `v < 0`). -/
lemma choose_move_straight_of_zero (g : TrailGenerator) (v : ℚ) (c : Nat)
    (h0 : 0 ≤ v) (htp : g.turn_prob = 0) (hs : g.move_ok Move.straight = true) :
    g.choose_move v c = Move.straight := by
  unfold choose_move
  rw [hs, htp]
  by_cases ht : g.turns_of.isEmpty = true
  · rw [ht]
    rfl
  · have ht' : g.turns_of.isEmpty = false := by
      revert ht; cases g.turns_of.isEmpty <;> simp
    rw [ht']
    show (if v < 0 then g.turns_of.getD (c % g.turns_of.length) Move.straight
      else Move.straight) = Move.straight
    rw [if_neg (not_lt.mpr h0)]

/-- A straight move is also chosen when no turn is accepted. -/
lemma choose_move_straight_of_no_turns (g : TrailGenerator) (v : ℚ) (c : Nat)
    (ht : g.turns_of = []) : g.choose_move v c = Move.straight := by
  unfold choose_move
  rw [ht]
  simp

/-- A turn is chosen whenever a turn is accepted and either straight is not
accepted or the draw falls below `turn_prob`. -/
lemma choose_move_mem_turns (g : TrailGenerator) (v : ℚ) (c : Nat)
    (h : g.turns_of ≠ [])
    (hcase : g.move_ok Move.straight = false ∨ v < g.turn_prob) :
    g.choose_move v c ∈ g.turns_of := by
  have hne : g.turns_of.isEmpty = false := by
    revert h; cases hl : g.turns_of <;> simp
  unfold choose_move
  cases hb : g.move_ok Move.straight
  · rw [hne]
    rw [if_neg (by decide : ¬ ((false && !false) = true))]
    rw [if_pos (by decide : (!false) = true)]
    exact turns_getD_mem g.turns_of c h
  · rcases hcase with hfalse | hv
    · rw [hb] at hfalse
      exact Bool.noConfusion hfalse
    · rw [hne]
      rw [if_pos (by decide : ((true && !false) = true))]
      rw [if_pos hv]
      exact turns_getD_mem g.turns_of c h

end TrailGenerator

lemma neighbor_ok_iff (size : Int) (grid : Int × Int → Bool) (current check : Int × Int) :
    neighbor_ok size grid current check = true ↔
      (check = current ∨ in_bounds size check = false ∨ grid check = false) := by
  unfold neighbor_ok
  by_cases h1 : check = current
  · simp [h1]
  · rw [if_neg h1]
    by_cases h2 : in_bounds size check = true
    · rw [if_pos h2]
      simp [h1, h2]
    · have h2' : in_bounds size check = false := by
        revert h2; cases in_bounds size check <;> simp
      rw [if_neg h2]
      simp [h1, h2']

/-- C2. The validity check `_is_move_valid` accepts a target cell `T`
against current location `C` exactly when `T` is Unvisited and each of its
four cardinal neighbors is either `C` itself, or outside the grid, or
Unvisited. -/
theorem is_move_valid_iff_spec (size : Int) (grid : Int × Int → Bool) (T C : Int × Int) :
    is_move_valid size grid T C = true ↔
      (grid T = false ∧
        ∀ K ∈ cardinal_neighbors T, K = C ∨ in_bounds size K = false ∨ grid K = false) := by
  by_cases hT : grid T = true
  · unfold is_move_valid
    rw [if_pos hT]
    simp [hT]
  · have hT' : grid T = false := by revert hT; cases grid T <;> simp
    unfold is_move_valid
    rw [if_neg hT]
    simp [hT', cardinal_neighbors, neighbor_ok_iff, List.all_eq_true, direction_vectors,
      sub_eq_add_neg, add_zero]

/-- C7. The heading encoding: unit vectors of headings 0..3, the signed
offsets of the three relative moves, incrementing a heading is a clockwise
quarter turn, and every candidate is obtained by adding the offset mod 4 to
the heading and the resulting unit vector to the location. -/
theorem heading_encoding :
    direction_vectors 0 = (-1, 0) ∧ direction_vectors 1 = (0, 1) ∧
    direction_vectors 2 = (1, 0) ∧ direction_vectors 3 = (0, -1) ∧
    move_to_direction_change .straight = 0 ∧
    move_to_direction_change .left = -1 ∧
    move_to_direction_change .right = 1 ∧
    (∀ h : Int, 0 ≤ h → h < 4 →
      direction_vectors ((h + 1).emod 4) = cw_rotate (direction_vectors h)) ∧
    (∀ (g : TrailGenerator) (m : Move),
      g.candidate m =
        ((g.agent_location.1 +
            (direction_vectors ((g.agent_direction + move_to_direction_change m).emod 4)).1,
          g.agent_location.2 +
            (direction_vectors ((g.agent_direction + move_to_direction_change m).emod 4)).2),
         (g.agent_direction + move_to_direction_change m).emod 4)) := by
  refine ⟨rfl, rfl, rfl, rfl, rfl, rfl, rfl, ?_, fun g m => rfl⟩
  intro h h0 h1
  have h4 : h = 0 ∨ h = 1 ∨ h = 2 ∨ h = 3 := by omega
  rcases h4 with h' | h' | h' | h' <;> subst h' <;> decide

/-- Witness for C7 at the concrete headings 0 and 3. -/
theorem heading_encoding_witness :
    direction_vectors (((0 : Int) + 1).emod 4) = cw_rotate (direction_vectors 0) ∧
    direction_vectors (((3 : Int) + 1).emod 4) = cw_rotate (direction_vectors 3) :=
  ⟨heading_encoding.2.2.2.2.2.2.2.1 0 (by decide) (by decide),
   heading_encoding.2.2.2.2.2.2.2.1 3 (by decide) (by decide)⟩

/-- C1 counterexample: with `size = 1` (a configuration with `size > 0`),
the reset window `[size // 2 - 2, size // 2 + 2)` is `[-2, 2)`; the draw
`(-2, 0)` lies inside that window on both axes, yet the agent row after
`reset` is `-2`, violating `0 ≤ row`. -/
theorem reset_window_escapes_grid :
    (0 : Int) < g_small.size ∧
    (g_small.size / 2 - 2 ≤ -2 ∧ (-2 : Int) < g_small.size / 2 + 2) ∧
    (g_small.size / 2 - 2 ≤ 0 ∧ (0 : Int) < g_small.size / 2 + 2) ∧
    ¬ 0 ≤ (g_small.reset (-2) 0 1).agent_location.1 := by
  decide

/-- C1 (amended). For every configuration with `size ≥ 4`, immediately
after `reset()` the agent's location satisfies `0 ≤ row < size` and
`0 ≤ col < size`, for every draw from the window
`[size // 2 - 2, size // 2 + 2)` on each axis. -/
theorem reset_location_in_bounds (g : TrailGenerator) (dr dc dd : Int)
    (hs : 4 ≤ g.size)
    (hr1 : g.size / 2 - 2 ≤ dr) (hr2 : dr < g.size / 2 + 2)
    (hc1 : g.size / 2 - 2 ≤ dc) (hc2 : dc < g.size / 2 + 2) :
    0 ≤ (g.reset dr dc dd).agent_location.1 ∧
    (g.reset dr dc dd).agent_location.1 < (g.reset dr dc dd).size ∧
    0 ≤ (g.reset dr dc dd).agent_location.2 ∧
    (g.reset dr dc dd).agent_location.2 < (g.reset dr dc dd).size := by
  refine ⟨?_, ?_, ?_, ?_⟩
  · show (0 : Int) ≤ dr
    omega
  · show dr < g.size
    omega
  · show (0 : Int) ≤ dc
    omega
  · show dc < g.size
    omega

/-- Witness for C1 (amended) at `size = 4` with draws `(1, 0)`. -/
theorem reset_location_in_bounds_witness :
    (4 ≤ g4.size ∧
      g4.size / 2 - 2 ≤ 1 ∧ (1 : Int) < g4.size / 2 + 2 ∧
      g4.size / 2 - 2 ≤ 0 ∧ (0 : Int) < g4.size / 2 + 2) ∧
    (0 ≤ (g4.reset 1 0 2).agent_location.1 ∧
      (g4.reset 1 0 2).agent_location.1 < (g4.reset 1 0 2).size ∧
      0 ≤ (g4.reset 1 0 2).agent_location.2 ∧
      (g4.reset 1 0 2).agent_location.2 < (g4.reset 1 0 2).size) :=
  ⟨by decide,
   reset_location_in_bounds g4 1 0 2 (by decide) (by decide) (by decide) (by decide)
     (by decide)⟩

/-- C5 counterexample: the configuration `size = 0`, `turn_probability = 2`,
`forget_probability = -1` violates every constraint, yet constructing the
engine succeeds without any error being signalled. -/
theorem init_accepts_invalid_config :
    ¬ (0 : Int) > 0 ∧ ¬ (2 : ℚ) ≤ 1 ∧ ¬ (0 : ℚ) ≤ -1 ∧
    (TrailGenerator.init 0 2 (-1) 0 1 2).isOk = true := by
  decide

/-- C5 (amended). The constructor performs no configuration validation:
for every `size ≥ 0` (including invalid probabilities and `size = 0`) it
succeeds and stores the configuration values unchanged — neither rejected
nor clamped; for `size < 0` it fails only with numpy's negative-dimensions
`ValueError`, not an invalid-configuration error. Range validation is done
by the external driver before construction. -/
theorem init_never_signals_config_error (grid_size : Int) (turn_prob sparsity : ℚ)
    (dr dc dd : Int) :
    (0 ≤ grid_size →
      ∃ g, TrailGenerator.init grid_size turn_prob sparsity dr dc dd = .ok g ∧
        g.size = grid_size ∧ g.turn_prob = turn_prob ∧ g.forget_prob = sparsity ∧
        g.is_trapped = false) ∧
    (grid_size < 0 →
      TrailGenerator.init grid_size turn_prob sparsity dr dc dd =
        .error "ValueError: negative dimensions are not allowed") := by
  constructor
  · intro h
    refine ⟨TrailGenerator.reset
      { size := grid_size, turn_prob := turn_prob, forget_prob := sparsity,
        grid := fun _ => false, agent_location := (0, 0),
        agent_direction := 0, is_trapped := false } dr dc dd, ?_, rfl, rfl, rfl, rfl⟩
    unfold TrailGenerator.init
    rw [if_neg (by omega)]
  · intro h
    unfold TrailGenerator.init
    rw [if_pos h]

/-- Witness for C5 (amended) at the invalid configuration
`(0, 2, -1)`. -/
theorem init_no_validation_witness :
    ∃ g, TrailGenerator.init 0 2 (-1) 0 1 2 = .ok g ∧
      g.size = 0 ∧ g.turn_prob = 2 ∧ g.forget_prob = -1 ∧ g.is_trapped = false :=
  (init_never_signals_config_error 0 2 (-1) 0 1 2).1 (by norm_num)

/-- C3. A `step()` with no in-bounds valid candidate sets `trapped` and
leaves location and heading unchanged; once trapped, `step()` is the
identity (grid, location, heading and flag all unchanged); and `reset()`
clears the trapped flag. -/
theorem trapped_behavior (g : TrailGenerator) (d : Draws) (dr dc dd : Int) :
    (g.is_trapped = true → g.step d = g) ∧
    (g.is_trapped = false →
      g.move_ok .straight = false → g.move_ok .left = false → g.move_ok .right = false →
        (g.step d).is_trapped = true ∧
        (g.step d).agent_location = g.agent_location ∧
        (g.step d).agent_direction = g.agent_direction) ∧
    (g.reset dr dc dd).is_trapped = false := by
  refine ⟨fun h => TrailGenerator.step_of_trapped g d h, ?_, rfl⟩
  intro h hs hl hr
  rw [TrailGenerator.step_of_no_moves g d h hs hl hr]
  refine ⟨rfl, ?_, ?_⟩
  · show (g.mark_if d.u).agent_location = g.agent_location
    exact TrailGenerator.mark_if_agent_location g d.u
  · show (g.mark_if d.u).agent_direction = g.agent_direction
    exact TrailGenerator.mark_if_agent_direction g d.u

/-- Witness for C3: a trapped 1×1 engine is left unchanged by `step()`;
a non-trapped 1×1 engine, whose three candidates are all out of bounds,
traps without moving; `reset` clears the flag. -/
theorem trapped_behavior_witness :
    g_stuck.step ⟨1, 0, 0⟩ = g_stuck ∧
    ((g_small.step ⟨1, 0, 0⟩).is_trapped = true ∧
      (g_small.step ⟨1, 0, 0⟩).agent_location = g_small.agent_location ∧
      (g_small.step ⟨1, 0, 0⟩).agent_direction = g_small.agent_direction) ∧
    (g_small.reset 0 0 0).is_trapped = false :=
  ⟨(trapped_behavior g_stuck ⟨1, 0, 0⟩ 0 0 0).1 rfl,
   (trapped_behavior g_small ⟨1, 0, 0⟩ 0 0 0).2.1 rfl (by decide) (by decide) (by decide),
   (trapped_behavior g_small ⟨1, 0, 0⟩ 0 0 0).2.2⟩

/-- C4. In a non-trapped `step()`, the current cell ends Visited exactly
when `u > forget_prob` (or it already was), no other cell changes, and the
marking changes the validity of no relative move. -/
theorem marking_effect (g : TrailGenerator) (d : Draws) (h : g.is_trapped = false) :
    ((g.step d).grid g.agent_location = true ↔
      (g.forget_prob < d.u ∨ g.grid g.agent_location = true)) ∧
    (¬ g.forget_prob < d.u →
      (g.step d).grid g.agent_location = g.grid g.agent_location) ∧
    (∀ p, p ≠ g.agent_location → (g.step d).grid p = g.grid p) ∧
    (∀ m, (g.mark_if d.u).move_ok m = g.move_ok m) := by
  have hg := TrailGenerator.step_grid g d h
  refine ⟨?_, ?_, ?_, TrailGenerator.move_ok_mark_if g d.u⟩
  · rw [hg]
    constructor
    · intro htrue
      by_cases hu : g.forget_prob < d.u
      · exact Or.inl hu
      · rw [TrailGenerator.mark_if_eq_of_le hu] at htrue
        exact Or.inr htrue
    · intro hor
      rcases hor with hu | hvis
      · exact TrailGenerator.mark_if_grid_loc g d.u hu
      · exact TrailGenerator.mark_if_grid_mono g d.u g.agent_location hvis
  · intro hu
    rw [hg, TrailGenerator.mark_if_eq_of_le hu]
  · intro p hp
    rw [hg]
    exact TrailGenerator.mark_if_grid_ne g d.u p hp

/-- Witness for C4 at the concrete scenario state with marking draw 1. -/
theorem marking_effect_witness :
    (g8.step ⟨1, 0, 0⟩).grid g8.agent_location = true :=
  (marking_effect g8 ⟨1, 0, 0⟩ rfl).1.mpr (Or.inl (by decide))

/-- C6. Move selection: when straight and at least one turn are accepted,
`turn_prob = 0` forces the straight move and `turn_prob = 1` forces a turn;
when only turns are accepted a turn is chosen, and when only straight is
accepted straight is chosen — for every draw `v ∈ [0,1)`. -/
theorem turn_probability_effect (g : TrailGenerator) (d : Draws)
    (h : g.is_trapped = false) (h0 : 0 ≤ d.v) (h1 : d.v < 1) :
    (g.move_ok .straight = true → (g.move_ok .left = true ∨ g.move_ok .right = true) →
      ((g.turn_prob = 0 →
        (g.step d).agent_location = (g.candidate .straight).1 ∧
        (g.step d).agent_direction = (g.candidate .straight).2) ∧
       (g.turn_prob = 1 →
        ∃ m ∈ g.turns_of,
          (g.step d).agent_location = (g.candidate m).1 ∧
          (g.step d).agent_direction = (g.candidate m).2))) ∧
    (g.move_ok .straight = false → (g.move_ok .left = true ∨ g.move_ok .right = true) →
      ∃ m ∈ g.turns_of,
        (g.step d).agent_location = (g.candidate m).1 ∧
        (g.step d).agent_direction = (g.candidate m).2) ∧
    (g.move_ok .straight = true → g.move_ok .left = false → g.move_ok .right = false →
      (g.step d).agent_location = (g.candidate .straight).1 ∧
      (g.step d).agent_direction = (g.candidate .straight).2) := by
  refine ⟨?_, ?_, ?_⟩
  · intro hs hturn
    have hstep := TrailGenerator.step_of_some_move g d h (Or.inl hs)
    constructor
    · intro htp
      rw [TrailGenerator.choose_move_straight_of_zero g d.v d.c h0 htp hs] at hstep
      rw [hstep]
      exact ⟨rfl, rfl⟩
    · intro htp
      have hv : d.v < g.turn_prob := by rw [htp]; exact h1
      refine ⟨g.choose_move d.v d.c,
        TrailGenerator.choose_move_mem_turns g d.v d.c
          (TrailGenerator.turns_of_ne_nil_of g hturn) (Or.inr hv), ?_, ?_⟩
      · rw [hstep]
      · rw [hstep]
  · intro hs hturn
    have hok : g.move_ok .straight = true ∨ g.move_ok .left = true ∨
        g.move_ok .right = true := by
      rcases hturn with h' | h'
      · exact Or.inr (Or.inl h')
      · exact Or.inr (Or.inr h')
    have hstep := TrailGenerator.step_of_some_move g d h hok
    refine ⟨g.choose_move d.v d.c,
      TrailGenerator.choose_move_mem_turns g d.v d.c
        (TrailGenerator.turns_of_ne_nil_of g hturn) (Or.inl hs), ?_, ?_⟩
    · rw [hstep]
    · rw [hstep]
  · intro hs hl hr
    have hstep := TrailGenerator.step_of_some_move g d h (Or.inl hs)
    rw [TrailGenerator.choose_move_straight_of_no_turns g d.v d.c
      (TrailGenerator.turns_of_eq_nil_of g hl hr)] at hstep
    rw [hstep]
    exact ⟨rfl, rfl⟩

/-- Witness for C6 at the scenario state `g8` (`turn_prob = 0`, straight and
both turns accepted): the agent moves straight. -/
theorem turn_probability_effect_witness :
    (g8.step ⟨1, 0, 0⟩).agent_location = (g8.candidate Move.straight).1 ∧
    (g8.step ⟨1, 0, 0⟩).agent_direction = (g8.candidate Move.straight).2 :=
  ((turn_probability_effect g8 ⟨1, 0, 0⟩ rfl (by decide) (by decide)).1 (by decide)
    (Or.inl (by decide))).1 rfl

/-- C9. Every grid change of a `step()` sets the changed cell to Visited,
and a Visited cell stays Visited over any further sequence of `step()`
calls. -/
theorem grid_monotone (g : TrailGenerator) (d : Draws) (ds : List Draws) (p : Int × Int) :
    ((g.step d).grid p ≠ g.grid p → (g.step d).grid p = true) ∧
    (g.grid p = true → (TrailGenerator.run g ds).grid p = true) := by
  refine ⟨TrailGenerator.step_grid_sets_true g d p, ?_⟩
  suffices h : ∀ g' : TrailGenerator, g'.grid p = true →
      (TrailGenerator.run g' ds).grid p = true from h g
  induction ds with
  | nil => exact fun g' hvis => hvis
  | cons a tl ih =>
    exact fun g' hvis => ih (g'.step a) (TrailGenerator.step_grid_mono g' a p hvis)

/-- Witness for C9: a pre-marked cell survives a two-step run. -/
theorem grid_monotone_witness :
    (TrailGenerator.run g_marked [⟨1, 0, 0⟩, ⟨1, 0, 0⟩]).grid (2, 2) = true :=
  (grid_monotone g_marked ⟨1, 0, 0⟩ [⟨1, 0, 0⟩, ⟨1, 0, 0⟩] (2, 2)).2 (by decide)

/-- C10. On the `step()` call where `trapped` flips from false to true,
location and heading are unchanged, no cell other than the current one
changes, and the current cell is still marked whenever the drawn `u`
exceeds `forget_prob` — the marking draw happens before trap detection. -/
theorem trap_transition_frame (g : TrailGenerator) (d : Draws)
    (h : g.is_trapped = false) (ht : (g.step d).is_trapped = true) :
    (g.step d).agent_location = g.agent_location ∧
    (g.step d).agent_direction = g.agent_direction ∧
    (∀ p, p ≠ g.agent_location → (g.step d).grid p = g.grid p) ∧
    (g.forget_prob < d.u → (g.step d).grid g.agent_location = true) := by
  have hmoves : ¬ (g.move_ok .straight = true ∨ g.move_ok .left = true ∨
      g.move_ok .right = true) := by
    intro hok
    have hfalse : (g.step d).is_trapped = false := by
      rw [TrailGenerator.step_of_some_move g d h hok]
      show (g.mark_if d.u).is_trapped = false
      rw [TrailGenerator.mark_if_is_trapped]
      exact h
    rw [ht] at hfalse
    exact Bool.noConfusion hfalse
  have hs : g.move_ok Move.straight = false := by
    cases hb : g.move_ok Move.straight
    · rfl
    · exact absurd (Or.inl hb) hmoves
  have hl : g.move_ok Move.left = false := by
    cases hb : g.move_ok Move.left
    · rfl
    · exact absurd (Or.inr (Or.inl hb)) hmoves
  have hr : g.move_ok Move.right = false := by
    cases hb : g.move_ok Move.right
    · rfl
    · exact absurd (Or.inr (Or.inr hb)) hmoves
  rw [TrailGenerator.step_of_no_moves g d h hs hl hr]
  refine ⟨?_, ?_, ?_, ?_⟩
  · show (g.mark_if d.u).agent_location = g.agent_location
    exact TrailGenerator.mark_if_agent_location g d.u
  · show (g.mark_if d.u).agent_direction = g.agent_direction
    exact TrailGenerator.mark_if_agent_direction g d.u
  · intro p hp
    show (g.mark_if d.u).grid p = g.grid p
    exact TrailGenerator.mark_if_grid_ne g d.u p hp
  · intro hu
    show (g.mark_if d.u).grid g.agent_location = true
    exact TrailGenerator.mark_if_grid_loc g d.u hu

/-- Witness for C10: the 1×1 engine traps on its first step and still marks
its cell, without moving. -/
theorem trap_transition_frame_witness :
    (g_small.step ⟨1, 0, 0⟩).agent_location = g_small.agent_location ∧
    (g_small.step ⟨1, 0, 0⟩).grid g_small.agent_location = true :=
  ⟨(trap_transition_frame g_small ⟨1, 0, 0⟩ rfl (by decide)).1,
   (trap_transition_frame g_small ⟨1, 0, 0⟩ rfl (by decide)).2.2.2 (by decide)⟩

/-- C8. The concrete scenario of §8: from `g8` (size 5, agent `(2, 2)`
heading Up, both probabilities 0), step 1 marks `(2, 2)` and moves to
`(1, 2)`; step 2 marks `(1, 2)` and moves to `(0, 2)`; on step 3 the
straight candidate `(-1, 2)` is out of bounds, both turns are accepted, and
the chosen turn is determined by the uniform choice index: an even index
turns left to `(0, 1)` (heading Left), an odd one right to `(0, 3)`
(heading Right). Holds for all draws with `u > 0` and `v ≥ 0`. -/
theorem concrete_scenario (d1 d2 d3 : Draws)
    (h1u : 0 < d1.u) (h1v : 0 ≤ d1.v)
    (h2u : 0 < d2.u) (h2v : 0 ≤ d2.v)
    (h3u : 0 < d3.u) :
    (g8.step d1).grid (2, 2) = true ∧
    (g8.step d1).agent_location = (1, 2) ∧
    (g8.step d1).agent_direction = 0 ∧
    ((g8.step d1).step d2).grid (1, 2) = true ∧
    ((g8.step d1).step d2).agent_location = (0, 2) ∧
    ((g8.step d1).step d2).agent_direction = 0 ∧
    in_bounds g8.size (-1, 2) = false ∧
    (((g8.step d1).step d2).mark_if d3.u).move_ok Move.straight = false ∧
    (((g8.step d1).step d2).mark_if d3.u).move_ok Move.left = true ∧
    (((g8.step d1).step d2).mark_if d3.u).move_ok Move.right = true ∧
    (((g8.step d1).step d2).mark_if d3.u).turns_of = [Move.left, Move.right] ∧
    (d3.c % 2 = 0 →
      (((g8.step d1).step d2).step d3).agent_location = (0, 1) ∧
      (((g8.step d1).step d2).step d3).agent_direction = 3) ∧
    (d3.c % 2 = 1 →
      (((g8.step d1).step d2).step d3).agent_location = (0, 3) ∧
      (((g8.step d1).step d2).step d3).agent_direction = 1) := by
  have e1 : g8.step d1 = s8_one := by
    rw [TrailGenerator.step_of_some_move g8 d1 rfl (Or.inl (by decide)),
      TrailGenerator.mark_if_eq_of_lt (show g8.forget_prob < d1.u from h1u),
      TrailGenerator.choose_move_straight_of_zero g8 d1.v d1.c h1v rfl (by decide)]
    rfl
  have e2 : s8_one.step d2 = s8_two := by
    rw [TrailGenerator.step_of_some_move s8_one d2 rfl (Or.inl (by decide)),
      TrailGenerator.mark_if_eq_of_lt (show s8_one.forget_prob < d2.u from h2u),
      TrailGenerator.choose_move_straight_of_zero s8_one d2.v d2.c h2v rfl (by decide)]
    rfl
  have e3 : s8_two.mark_if d3.u = s8_three := by
    rw [TrailGenerator.mark_if_eq_of_lt (show s8_two.forget_prob < d3.u from h3u)]
    rfl
  have hstep3 := TrailGenerator.step_of_some_move s8_two d3 rfl
    (Or.inr (Or.inl (by decide)))
  refine ⟨?_, ?_, ?_, ?_, ?_, ?_, ?_, ?_, ?_, ?_, ?_, ?_, ?_⟩
  · rw [e1]; rfl
  · rw [e1]; rfl
  · rw [e1]; rfl
  · rw [e1, e2]; rfl
  · rw [e1, e2]; rfl
  · rw [e1, e2]; rfl
  · decide
  · rw [e1, e2, e3]; decide
  · rw [e1, e2, e3]; decide
  · rw [e1, e2, e3]; decide
  · rw [e1, e2, e3]; decide
  · intro hc
    have hcm : s8_two.choose_move d3.v d3.c = Move.left := by
      unfold TrailGenerator.choose_move
      rw [(by decide : s8_two.move_ok Move.straight = false),
        (by decide : s8_two.turns_of = [Move.left, Move.right])]
      rw [if_neg (by decide), if_pos (by decide)]
      show [Move.left, Move.right].getD (d3.c % 2) Move.straight = Move.left
      rw [hc]
      rfl
    rw [e1, e2, hstep3, hcm, e3]
    exact ⟨rfl, rfl⟩
  · intro hc
    have hcm : s8_two.choose_move d3.v d3.c = Move.right := by
      unfold TrailGenerator.choose_move
      rw [(by decide : s8_two.move_ok Move.straight = false),
        (by decide : s8_two.turns_of = [Move.left, Move.right])]
      rw [if_neg (by decide), if_pos (by decide)]
      show [Move.left, Move.right].getD (d3.c % 2) Move.straight = Move.right
      rw [hc]
      rfl
    rw [e1, e2, hstep3, hcm, e3]
    exact ⟨rfl, rfl⟩

/-- Witness for C8 with all draws `u = 1`, `v = 0`, showing both the
even-index (left) and odd-index (right) outcomes of step 3. -/
theorem concrete_scenario_witness :
    (((g8.step ⟨1, 0, 0⟩).step ⟨1, 0, 0⟩).step ⟨1, 0, 0⟩).agent_location = (0, 1) ∧
    (((g8.step ⟨1, 0, 0⟩).step ⟨1, 0, 0⟩).step ⟨1, 0, 1⟩).agent_location = (0, 3) :=
  ⟨((concrete_scenario ⟨1, 0, 0⟩ ⟨1, 0, 0⟩ ⟨1, 0, 0⟩ (by decide) (by decide) (by decide)
      (by decide) (by decide)).2.2.2.2.2.2.2.2.2.2.2.1 rfl).1,
   ((concrete_scenario ⟨1, 0, 0⟩ ⟨1, 0, 0⟩ ⟨1, 0, 1⟩ (by decide) (by decide) (by decide)
      (by decide) (by decide)).2.2.2.2.2.2.2.2.2.2.2.2 rfl).1⟩
